import Mathlib

/-!
Shallow embedding of `src/functions.py` from the `weather_python` repository.

A pandas dataframe of weather observations becomes a `List Obs`; a numeric
metric column entry becomes `Option ℚ` (a missing value / NaN is `none`, and a
pandas comparison against NaN evaluates to `False`).  Each analysis function of
`functions.py` becomes a Lean function whose structure follows the Python
source line by line; plotting calls are dropped (they are thin wrappers with no
data logic) and only the data transformations they are fed are retained.
-/

namespace Weather

/-- One weather observation row: station identifier, station name, calendar
date (kept as the raw string of the CSV, as Python compares it), the `year`
column, and the two temperature metric columns. -/
structure Obs where
  STATION : String
  NAME : String
  DATE : String
  year : Int
  TMIN : Option ℚ
  TMAX : Option ℚ
deriving DecidableEq, Repr

/-- The metric column name passed to functions such as
`view_station_date_ranges(df, metric)` and `ideal_temp(df, tmin_or_tmax, ...)`. -/
inductive Metric where
  | TMIN : Metric
  | TMAX : Metric
deriving DecidableEq, Repr

/-- Column selection `df[metric]` for one row. -/
def Obs.metric (r : Obs) : Metric → Option ℚ
  | Metric.TMIN => r.TMIN
  | Metric.TMAX => r.TMAX

/-- Pandas `df[c] >= b` on a possibly missing value: a NaN comparison is `False`. -/
def optGe (x : Option ℚ) (b : ℚ) : Bool :=
  match x with
  | some v => decide (b ≤ v)
  | none => false

/-- Pandas `df[c] <= b` on a possibly missing value: a NaN comparison is `False`. -/
def optLe (x : Option ℚ) (b : ℚ) : Bool :=
  match x with
  | some v => decide (v ≤ b)
  | none => false

/-- Code-point lexicographic order on lists of characters, as Python compares
strings (`min`/`max` over a column of date strings, `sort_values` on ids). -/
def lexLe : List Char → List Char → Bool
  | [], _ => true
  | _ :: _, [] => false
  | a :: as, b :: bs =>
    if a.toNat < b.toNat then true
    else if b.toNat < a.toNat then false
    else lexLe as bs

/-- Python string `<=` (lexicographic by code point). -/
def strLe (a b : String) : Bool :=
  lexLe a.data b.data

/-- Python `min` over a nonempty collection of strings (`min(a["DATE"])`). -/
def minStr : List String → Option String
  | [] => none
  | d :: ds => some (ds.foldl (fun m e => if strLe e m then e else m) d)

/-- Python `max` over a nonempty collection of strings (`max(a["DATE"])`). -/
def maxStr : List String → Option String
  | [] => none
  | d :: ds => some (ds.foldl (fun m e => if strLe m e then e else m) d)

/-- Pandas `drop_duplicates()` / `Series.unique()`: keep the first occurrence
of every value, preserving order of first appearance. -/
def dedupFirst {α : Type} [DecidableEq α] : List α → List α
  | [] => []
  | a :: t => a :: dedupFirst (t.filter (fun b => decide (b ≠ a)))
termination_by l => l.length
decreasing_by
  simp only [List.length_cons]
  exact Nat.lt_succ_of_le (List.length_filter_le _ t)

/-- Spec wording "metric value v satisfies lower ≤ v ≤ upper, with both
boundaries inclusive", as a proposition on a possibly missing value. -/
def inBand (o : Option ℚ) (lo hi : ℚ) : Prop :=
  ∃ v, o = some v ∧ lo ≤ v ∧ v ≤ hi

instance decidableInBand (o : Option ℚ) (lo hi : ℚ) : Decidable (inBand o lo hi) :=
  match o with
  | none => isFalse (by simp [inBand])
  | some v => decidable_of_iff (lo ≤ v ∧ v ≤ hi) (by simp [inBand])

/-! ### `view_station_date_ranges` (src/functions.py lines 9–38) -/

/-- The filter `df = df[~df[metric].isnull()]`. -/
def metricFiltered (df : List Obs) (metric : Metric) : List Obs :=
  df.filter (fun r => (r.metric metric).isSome)

/-- The per-station slice `a = df[df["STATION"] == station]` of the filtered frame. -/
def stationRows (df : List Obs) (metric : Metric) (st : String) : List Obs :=
  (metricFiltered df metric).filter (fun r => decide (r.STATION = st))

/-- `min(a["DATE"])` for one station (defined when the station has rows). -/
def stationMinDate (df : List Obs) (metric : Metric) (st : String) : String :=
  (minStr ((stationRows df metric st).map Obs.DATE)).getD ""

/-- `max(a["DATE"])` for one station (defined when the station has rows). -/
def stationMaxDate (df : List Obs) (metric : Metric) (st : String) : String :=
  (maxStr ((stationRows df metric st).map Obs.DATE)).getD ""

/-- One output row of `view_station_date_ranges`: the selected columns
`["STATION", "NAME", "min_date", "max_date"]`. -/
structure StationRange where
  STATION : String
  NAME : String
  min_date : String
  max_date : String
deriving DecidableEq, Repr

/-- The loop of `view_station_date_ranges`: over `df.STATION.unique()` of the
filtered frame, assign each station's `min_date`/`max_date` to all of its rows
and concatenate, keeping the four selected columns
`["STATION", "NAME", "min_date", "max_date"]`. -/
def station_list (df : List Obs) (metric : Metric) : List StationRange :=
  (dedupFirst ((metricFiltered df metric).map Obs.STATION)).flatMap
    (fun st =>
      (stationRows df metric st).map
        (fun r => ⟨r.STATION, r.NAME, stationMinDate df metric st,
                   stationMaxDate df metric st⟩))

/-- `view_station_date_ranges(df, metric)`: filter out null-metric rows, run
the `station_list` loop, then `drop_duplicates()` and sort (stably) by
`STATION`.  When the filtered frame is empty the loop body never runs,
`station_list = pd.DataFrame()` has no columns, and the final column selection
`station_list[["STATION", ...]]` raises a `KeyError`; that is modelled as
`Except.error`. -/
def view_station_date_ranges (df : List Obs) (metric : Metric) :
    Except String (List StationRange) :=
  if (station_list df metric).isEmpty then
    Except.error "KeyError"
  else
    Except.ok ((dedupFirst (station_list df metric)).mergeSort
      (fun r1 r2 => strLe r1.STATION r2.STATION))

/-! ### `ideal_temp` (src/functions.py lines 162–206) -/

/-- One row of a `groupby(["NAME", "year"]).agg({"DATE": "count"})` result. -/
structure YearCount where
  NAME : String
  year : Int
  days : Nat
deriving DecidableEq, Repr

/-- The distinct `(NAME, year)` group keys of a frame, in order of first
appearance.  (Pandas sorts group keys; none of the verified claims depend on
the order of the group rows, only on their multiset.) -/
def groupKeys (l : List Obs) : List (String × Int) :=
  dedupFirst (l.map (fun r => (r.NAME, r.year)))

/-- `groupby(["NAME", "year"], as_index=False).agg({"DATE": "count"})`:
one row per observed `(NAME, year)` pair holding the number of rows. -/
def yearlyCounts (l : List Obs) : List YearCount :=
  (groupKeys l).map (fun g =>
    ⟨g.1, g.2, (l.filter (fun r => decide (r.NAME = g.1) && decide (r.year = g.2))).length⟩)

/-- The filter
`df[(df[tmin_or_tmax] >= ideal_min_limit) & (df[tmin_or_tmax] <= ideal_max_limit)]`. -/
def idealFiltered (df : List Obs) (tmin_or_tmax : Metric)
    (ideal_min_limit ideal_max_limit : ℚ) : List Obs :=
  df.filter (fun r =>
    optGe (r.metric tmin_or_tmax) ideal_min_limit &&
    optLe (r.metric tmin_or_tmax) ideal_max_limit)

/-- The `ideal_weather2` frame of `ideal_temp`: per-(station, year) counts of
rows whose metric lies in the inclusive band. -/
def ideal_temp (df : List Obs) (tmin_or_tmax : Metric)
    (ideal_min_limit ideal_max_limit : ℚ) : List YearCount :=
  yearlyCounts (idealFiltered df tmin_or_tmax ideal_min_limit ideal_max_limit)

/-- `groupby(NAME).agg({days: "mean"})`: per station name, the mean of its
yearly counts (one value per year present for that station). -/
def yearlyAvg (yearly : List YearCount) : List (String × ℚ) :=
  (dedupFirst (yearly.map YearCount.NAME)).map (fun n =>
    let cs := (yearly.filter (fun y => decide (y.NAME = n))).map YearCount.days
    (n, ((cs.sum : ℚ)) / ((cs.length : ℚ))))

/-- The `ideal_weather_avg` frame of `ideal_temp`: mean ideal-day count per
station, sorted descending by the mean. -/
def ideal_temp_avg (df : List Obs) (tmin_or_tmax : Metric)
    (ideal_min_limit ideal_max_limit : ℚ) : List (String × ℚ) :=
  (yearlyAvg (ideal_temp df tmin_or_tmax ideal_min_limit ideal_max_limit)).mergeSort
    (fun a b => decide (b.2 ≤ a.2))

/-! ### `non_ideal_temp_days` (src/functions.py lines 366–409) -/

/-- One output row of `non_ideal_temp_days`. -/
structure TooRow where
  NAME : String
  avg_days_too_cold : Int
  avg_days_too_hot : Int
  non_ideal_days : Int
deriving DecidableEq, Repr

/-- `np.round(x, 0)` (and Python `round`): round half to even. -/
def roundHalfEven (q : ℚ) : Int :=
  if q - ⌊q⌋ < 1 / 2 then ⌊q⌋
  else if 1 / 2 < q - ⌊q⌋ then ⌊q⌋ + 1
  else if ⌊q⌋ % 2 = 0 then ⌊q⌋ else ⌊q⌋ + 1

/-- The filter `too_cold = df[(df["TMIN"] <= tmin_threshold)]`. -/
def tooColdRows (df : List Obs) (tmin_threshold : ℚ) : List Obs :=
  df.filter (fun r => optLe r.TMIN tmin_threshold)

/-- The filter `too_hot = df[df["TMAX"] >= tmax_threshold]`. -/
def tooHotRows (df : List Obs) (tmax_threshold : ℚ) : List Obs :=
  df.filter (fun r => optGe r.TMAX tmax_threshold)

/-- `non_ideal_temp_days(df, tmin_threshold, tmax_threshold)`: yearly too-cold
counts averaged per station, likewise for too-hot, inner-merged on `NAME`
(pandas keeps the left frame's key order), the two averages rounded to
integers, summed into `non_ideal_days`, and the result sorted (stably)
ascending by that sum. -/
def non_ideal_temp_days (df : List Obs) (tmin_threshold tmax_threshold : ℚ) :
    List TooRow :=
  let too_cold_yearly_avg := yearlyAvg (yearlyCounts (tooColdRows df tmin_threshold))
  let too_hot_yearly_avg := yearlyAvg (yearlyCounts (tooHotRows df tmax_threshold))
  let too : List TooRow := too_cold_yearly_avg.filterMap (fun c =>
    (too_hot_yearly_avg.lookup c.1).map (fun h =>
      ⟨c.1, roundHalfEven c.2, roundHalfEven h,
       roundHalfEven c.2 + roundHalfEven h⟩))
  too.mergeSort (fun a b => decide (a.non_ideal_days ≤ b.non_ideal_days))

/-! ### `tmin_annual_plot` (src/functions.py lines 209–265) -/

/-- The index of `df.pivot_table(index="year", columns="NAME", values="TMIN",
aggfunc="min")` as a finite set: the years carrying at least one non-null
`TMIN` observation. -/
def pivotFinset (df : List Obs) : Finset Int :=
  ((df.filter (fun r => r.TMIN.isSome)).map Obs.year).toFinset

/-- The pivot index as pandas materialises it: the distinct years sorted
ascending. -/
def pivotYears (df : List Obs) : List Int :=
  (pivotFinset df).sort (fun y1 y2 => y1 ≤ y2)

/-- One pivot cell: the minimum non-null `TMIN` of the given station name in
the given year (`none` when the station has no non-null data that year). -/
def annualMin (df : List Obs) (n : String) (y : Int) : Option ℚ :=
  ((df.filter (fun r => decide (r.NAME = n) && decide (r.year = y))).filterMap Obs.TMIN).min?

/-- One pivot column: the station's annual minimum for every year of the index. -/
def tminAnnualCol (df : List Obs) (n : String) : List (Option ℚ) :=
  (pivotYears df).map (annualMin df n)

/-- `Series.rolling(window=30, min_periods=30).mean()`: the value at row `i`
is the mean of rows `i-29 .. i` of the column, present only when all 30 of
those rows are present (a window with any missing value yields `none`, as does
any row with fewer than 30 predecessors). -/
def rolling30Mean (col : List (Option ℚ)) : List (Option ℚ) :=
  (List.range col.length).map (fun i =>
    if 29 ≤ i then
      if ((col.take (i + 1)).drop (i - 29)).all Option.isSome then
        some (((((col.take (i + 1)).drop (i - 29)).filterMap id).sum) / 30)
      else none
    else none)

/-- The `"... Hardiness Zone"` column `tmin_annual_plot` adds for one station:
the trailing 30-year rolling mean of its annual minimum column. -/
def hardinessZoneCol (df : List Obs) (n : String) : List (Option ℚ) :=
  rolling30Mean (tminAnnualCol df n)

/-- The set of years in which a station name has at least one non-null `TMIN`
observation ("years of data" for the rolling hardiness metric). -/
def stationDataYears (df : List Obs) (n : String) : Finset Int :=
  ((df.filter (fun r => decide (r.NAME = n) && r.TMIN.isSome)).map Obs.year).toFinset

/-! ### `plot_monthly_temp_plots` (src/functions.py lines 115–159) -/

/-- `df.TMAX.min()`: minimum over the non-null entries of the column
(`none` models the NaN a pandas min of an all-NaN column returns). -/
def tmaxColMin (df : List Obs) : Option ℚ :=
  (df.filterMap Obs.TMAX).min?

/-- `df.TMAX.max()`: maximum over the non-null entries of the column. -/
def tmaxColMax (df : List Obs) : Option ℚ :=
  (df.filterMap Obs.TMAX).max?

/-- The guard of `plot_monthly_temp_plots`:
`assert df.TMAX.min() > ylim_low` then `assert df.TMAX.max() < ylim_high`
(a comparison against NaN is `False`, so an all-NaN column also fails).
The plotting body that follows has no further data logic and is elided. -/
def plot_monthly_temp_plots (df : List Obs) (ylim_low ylim_high : ℚ) :
    Except String Unit :=
  if (match tmaxColMin df with
      | some m => decide (ylim_low < m)
      | none => false) then
    if (match tmaxColMax df with
        | some m => decide (m < ylim_high)
        | none => false) then
      Except.ok ()
    else Except.error "AssertionError"
  else Except.error "AssertionError"

/-! ### Dataset Merger (spec section 4.1; not present under src/) -/

/-- An observation set for the Dataset Merger: a column schema plus rows of
field values, all rows sharing the schema. -/
structure ObsSet where
  cols : List String
  rows : List (List String)
deriving DecidableEq, Repr

/-- Modelled from the spec: the Dataset Merger of spec section 4.1 is not
present under `src/` (the repository ships only `functions.py`).  Per the
spec's words: given an incoming batch and an existing set with an identical
column schema, produce the union with exact-duplicate rows collapsed to one,
preserving first-seen order from the concatenation (new batch first, then
existing); mismatched schemas fail with `SchemaMismatch` and no output. -/
def merge_datasets (newBatch existing : ObsSet) : Except String ObsSet :=
  if newBatch.cols = existing.cols then
    Except.ok ⟨newBatch.cols, dedupFirst (newBatch.rows ++ existing.rows)⟩
  else
    Except.error "SchemaMismatch"

/-! ### Spec-side restatements (for refinement claims)

These re-derive, directly from the spec's words, the quantities that
`non_ideal_temp_days` is claimed to compute: "the average annual count of
too-cold days (TMIN ≤ threshold) and too-hot days (TMAX ≥ threshold),
averaged across the years present for that station". -/

/-- Spec: the years present for a station among its too-cold days. -/
def spec_too_cold_years (df : List Obs) (tmin_threshold : ℚ) (n : String) : Finset Int :=
  ((df.filter (fun r => decide (r.NAME = n) && optLe r.TMIN tmin_threshold)).map Obs.year).toFinset

/-- Spec: the number of too-cold days of a station in one year. -/
def spec_too_cold_count (df : List Obs) (tmin_threshold : ℚ) (n : String) (y : Int) : ℕ :=
  df.countP (fun r => decide (r.NAME = n) && decide (r.year = y) && optLe r.TMIN tmin_threshold)

/-- Spec: the average annual number of too-cold days of a station, averaged
across the years present for that station. -/
def spec_avg_too_cold (df : List Obs) (tmin_threshold : ℚ) (n : String) : ℚ :=
  (∑ y in spec_too_cold_years df tmin_threshold n,
    ((spec_too_cold_count df tmin_threshold n y : ℚ))) /
  (((spec_too_cold_years df tmin_threshold n).card : ℚ))

/-- Spec: the years present for a station among its too-hot days. -/
def spec_too_hot_years (df : List Obs) (tmax_threshold : ℚ) (n : String) : Finset Int :=
  ((df.filter (fun r => decide (r.NAME = n) && optGe r.TMAX tmax_threshold)).map Obs.year).toFinset

/-- Spec: the number of too-hot days of a station in one year. -/
def spec_too_hot_count (df : List Obs) (tmax_threshold : ℚ) (n : String) (y : Int) : ℕ :=
  df.countP (fun r => decide (r.NAME = n) && decide (r.year = y) && optGe r.TMAX tmax_threshold)

/-- Spec: the average annual number of too-hot days of a station, averaged
across the years present for that station. -/
def spec_avg_too_hot (df : List Obs) (tmax_threshold : ℚ) (n : String) : ℚ :=
  (∑ y in spec_too_hot_years df tmax_threshold n,
    ((spec_too_hot_count df tmax_threshold n y : ℚ))) /
  (((spec_too_hot_years df tmax_threshold n).card : ℚ))

/-! ### Concrete inputs used by witnesses and counterexamples -/

/-- Row constructor shorthand for concrete examples. -/
def mkObs (st nm d : String) (y : Int) (tn tx : Option ℚ) : Obs :=
  ⟨st, nm, d, y, tn, tx⟩

/-- The spec's ideal-day example: station "A", year 2020, TMAX values
55, 60, 65, 75, 80. -/
def dfC2 : List Obs :=
  [mkObs "A" "A" "d1" 2020 none (some 55),
   mkObs "A" "A" "d2" 2020 none (some 60),
   mkObs "A" "A" "d3" 2020 none (some 65),
   mkObs "A" "A" "d4" 2020 none (some 75),
   mkObs "A" "A" "d5" 2020 none (some 80)]

/-- The spec's non-ideal-days example realised: five years (0–4) with
10, 10, 10, 11, 11 too-cold days (TMIN 0 ≤ 32; other rows have TMIN 50) and
5, 6, 6, 5, 6 too-hot days (TMAX 100 ≥ 90; other rows have TMAX 50), so the
averages are 52/5 = 10.4 and 28/5 = 5.6. -/
def dfC3 : List Obs :=
  (List.range 5).flatMap (fun y =>
    (List.range 11).map (fun j =>
      mkObs "A" "A" "" ((y : Int))
        (some (if j < [10, 10, 10, 11, 11].getD y 0 then (0 : ℚ) else 50))
        (some (if j < [5, 6, 6, 5, 6].getD y 0 then (100 : ℚ) else 50))))

/-- The spec's date-range example: station "S1" with dates 2020-01-01,
2020-06-15, 2020-03-01 (all TMIN present). -/
def dfC4 : List Obs :=
  [mkObs "S1" "N" "2020-01-01" 2020 (some 1) none,
   mkObs "S1" "N" "2020-06-15" 2020 (some 2) none,
   mkObs "S1" "N" "2020-03-01" 2020 (some 3) none]

/-- One station identifier appearing under two station names. -/
def dfC5 : List Obs :=
  [mkObs "S" "N1" "2020-01-01" 2020 (some 1) none,
   mkObs "S" "N2" "2020-01-01" 2020 (some 1) none]

/-- A single row whose TMIN metric is missing. -/
def dfC6 : List Obs :=
  [mkObs "S" "N" "2020-01-01" 2020 none (some 50)]

/-- A station with exactly 30 consecutive years 0–29 of TMIN data, the annual
minimum in year k being k. -/
def rows30 : List Obs :=
  (List.range 30).map (fun k => mkObs "A" "A" "" ((k : Int)) (some ((k : ℚ))) none)

/-- A station with exactly 29 years of TMIN data (years 0–28). -/
def rows29 : List Obs :=
  (List.range 29).map (fun k => mkObs "A" "A" "" ((k : Int)) (some ((k : ℚ))) none)

/-- One row whose TMAX equals the default lower y-limit −20. -/
def dfC10 : List Obs :=
  [mkObs "A" "A" "" 0 none (some (-20))]

/-! ### Helper lemmas -/

theorem mem_dedupFirst {α : Type} [DecidableEq α] (l : List α) (x : α) :
    x ∈ dedupFirst l ↔ x ∈ l := by
  induction l using dedupFirst.induct with
  | case1 => simp [dedupFirst]
  | case2 a t ih =>
    simp only [dedupFirst, List.mem_cons, ih, List.mem_filter, decide_eq_true_eq]
    by_cases hx : x = a
    · simp [hx]
    · simp [hx]

theorem nodup_dedupFirst {α : Type} [DecidableEq α] (l : List α) :
    (dedupFirst l).Nodup := by
  induction l using dedupFirst.induct with
  | case1 => simp [dedupFirst]
  | case2 a t ih =>
    simp only [dedupFirst, List.nodup_cons]
    refine ⟨fun hmem => ?_, ih⟩
    rw [mem_dedupFirst] at hmem
    simp at hmem

theorem dedupFirst_append_self {α : Type} [DecidableEq α] (l : List α) :
    dedupFirst (l ++ l) = dedupFirst l := by
  induction l using dedupFirst.induct with
  | case1 => rfl
  | case2 a t ih =>
    show dedupFirst (a :: (t ++ a :: t)) = dedupFirst (a :: t)
    have hfc : (a :: t).filter (fun b => decide (b ≠ a)) =
        t.filter (fun b => decide (b ≠ a)) := by
      simp [List.filter_cons]
    rw [dedupFirst, dedupFirst, List.filter_append, hfc, ih]

theorem lexLe_refl : ∀ as : List Char, lexLe as as = true := by
  intro as
  induction as with
  | nil => rfl
  | cons a t ih => simp [lexLe, ih]

theorem lexLe_total : ∀ as bs : List Char, lexLe as bs = true ∨ lexLe bs as = true := by
  intro as
  induction as with
  | nil => intro bs; left; rfl
  | cons a t ih =>
    intro bs
    cases bs with
    | nil => right; rfl
    | cons b u =>
      by_cases h1 : a.toNat < b.toNat
      · left; simp [lexLe, h1]
      · by_cases h2 : b.toNat < a.toNat
        · right; simp [lexLe, h2]
        · rcases ih u with h | h
          · left; simp [lexLe, h1, h2, h]
          · right; simp [lexLe, h1, h2, h]

theorem lexLe_trans : ∀ as bs cs : List Char,
    lexLe as bs = true → lexLe bs cs = true → lexLe as cs = true := by
  intro as
  induction as with
  | nil => intro bs cs _ _; rfl
  | cons a t ih =>
    intro bs cs hab hbc
    cases bs with
    | nil => simp [lexLe] at hab
    | cons b u =>
      cases cs with
      | nil => simp [lexLe] at hbc
      | cons c v =>
        simp only [lexLe] at hab hbc ⊢
        split_ifs at hab hbc ⊢ with h1 h2 h3 h4 h5 h6 <;>
          first
          | rfl
          | omega
          | (exact ih u v hab hbc)

theorem strLe_refl (a : String) : strLe a a = true :=
  lexLe_refl a.data

theorem strLe_total (a b : String) : strLe a b = true ∨ strLe b a = true :=
  lexLe_total a.data b.data

theorem strLe_trans {a b c : String} (h1 : strLe a b = true) (h2 : strLe b c = true) :
    strLe a c = true :=
  lexLe_trans a.data b.data c.data h1 h2


theorem foldl_minStr_spec (t : List String) : ∀ a : String,
    (t.foldl (fun m e => if strLe e m then e else m) a) ∈ a :: t ∧
    ∀ e ∈ a :: t, strLe (t.foldl (fun m e => if strLe e m then e else m) a) e = true := by
  induction t with
  | nil => intro a; simp [strLe_refl]
  | cons e t ih =>
    intro a
    have hstep : (e :: t).foldl (fun m e => if strLe e m then e else m) a =
        t.foldl (fun m e => if strLe e m then e else m) (if strLe e a then e else a) := rfl
    obtain ⟨hm, hle⟩ := ih (if strLe e a then e else a)
    have hea : strLe (if strLe e a then e else a) a = true := by
      split_ifs with h
      · exact h
      · exact strLe_refl a
    have hee : strLe (if strLe e a then e else a) e = true := by
      split_ifs with h
      · exact strLe_refl e
      · rcases strLe_total e a with h' | h'
        · exact absurd h' h
        · exact h'
    rw [List.mem_cons] at hm
    constructor
    · rw [hstep, List.mem_cons, List.mem_cons]
      rcases hm with hm | hm
      · by_cases h : strLe e a = true
        · right; left; rw [hm, if_pos h]
        · left; rw [hm, if_neg h]
      · right; right; exact hm
    · intro d hd
      have hhead : strLe ((e :: t).foldl (fun m e => if strLe e m then e else m) a)
          (if strLe e a then e else a) = true := by
        rw [hstep]; exact hle _ (List.mem_cons_self _ _)
      rw [List.mem_cons, List.mem_cons] at hd
      rcases hd with hd | hd | hd
      · subst hd; exact strLe_trans hhead hea
      · subst hd; exact strLe_trans hhead hee
      · rw [hstep]; exact hle d (List.mem_cons_of_mem _ hd)

theorem foldl_maxStr_spec (t : List String) : ∀ a : String,
    (t.foldl (fun m e => if strLe m e then e else m) a) ∈ a :: t ∧
    ∀ e ∈ a :: t, strLe e (t.foldl (fun m e => if strLe m e then e else m) a) = true := by
  induction t with
  | nil => intro a; simp [strLe_refl]
  | cons e t ih =>
    intro a
    have hstep : (e :: t).foldl (fun m e => if strLe m e then e else m) a =
        t.foldl (fun m e => if strLe m e then e else m) (if strLe a e then e else a) := rfl
    obtain ⟨hm, hle⟩ := ih (if strLe a e then e else a)
    have hea : strLe a (if strLe a e then e else a) = true := by
      split_ifs with h
      · exact h
      · exact strLe_refl a
    have hee : strLe e (if strLe a e then e else a) = true := by
      split_ifs with h
      · exact strLe_refl e
      · rcases strLe_total a e with h' | h'
        · exact absurd h' h
        · exact h'
    rw [List.mem_cons] at hm
    constructor
    · rw [hstep, List.mem_cons, List.mem_cons]
      rcases hm with hm | hm
      · by_cases h : strLe a e = true
        · right; left; rw [hm, if_pos h]
        · left; rw [hm, if_neg h]
      · right; right; exact hm
    · intro d hd
      have hhead : strLe (if strLe a e then e else a)
          ((e :: t).foldl (fun m e => if strLe m e then e else m) a) = true := by
        rw [hstep]; exact hle _ (List.mem_cons_self _ _)
      rw [List.mem_cons, List.mem_cons] at hd
      rcases hd with hd | hd | hd
      · subst hd; exact strLe_trans hea hhead
      · subst hd; exact strLe_trans hee hhead
      · rw [hstep]; exact hle d (List.mem_cons_of_mem _ hd)

theorem minStr_spec {l : List String} {d : String} (h : minStr l = some d) :
    d ∈ l ∧ ∀ e ∈ l, strLe d e = true := by
  cases l with
  | nil => simp [minStr] at h
  | cons a t =>
    simp only [minStr, Option.some.injEq] at h
    subst h
    exact foldl_minStr_spec t a

theorem maxStr_spec {l : List String} {d : String} (h : maxStr l = some d) :
    d ∈ l ∧ ∀ e ∈ l, strLe e d = true := by
  cases l with
  | nil => simp [maxStr] at h
  | cons a t =>
    simp only [maxStr, Option.some.injEq] at h
    subst h
    exact foldl_maxStr_spec t a

theorem foldl_min_spec (t : List ℚ) : ∀ a : ℚ,
    (t.foldl min a) ∈ a :: t ∧ ∀ b ∈ a :: t, t.foldl min a ≤ b := by
  induction t with
  | nil => intro a; simp
  | cons e t ih =>
    intro a
    have hstep : (e :: t).foldl min a = t.foldl min (min a e) := rfl
    obtain ⟨hm, hle⟩ := ih (min a e)
    have hhead : t.foldl min (min a e) ≤ min a e := hle _ (List.mem_cons_self _ _)
    rw [List.mem_cons] at hm
    constructor
    · rw [hstep, List.mem_cons, List.mem_cons]
      rcases hm with hm | hm
      · rcases min_choice a e with h | h
        · left; rw [hm, h]
        · right; left; rw [hm, h]
      · right; right; exact hm
    · intro b hb
      rw [List.mem_cons, List.mem_cons] at hb
      rcases hb with hb | hb | hb
      · subst hb; rw [hstep]; exact le_trans hhead (min_le_left _ _)
      · subst hb; rw [hstep]; exact le_trans hhead (min_le_right _ _)
      · rw [hstep]; exact hle b (List.mem_cons_of_mem _ hb)

theorem foldl_max_spec (t : List ℚ) : ∀ a : ℚ,
    (t.foldl max a) ∈ a :: t ∧ ∀ b ∈ a :: t, b ≤ t.foldl max a := by
  induction t with
  | nil => intro a; simp
  | cons e t ih =>
    intro a
    have hstep : (e :: t).foldl max a = t.foldl max (max a e) := rfl
    obtain ⟨hm, hle⟩ := ih (max a e)
    have hhead : max a e ≤ t.foldl max (max a e) := hle _ (List.mem_cons_self _ _)
    rw [List.mem_cons] at hm
    constructor
    · rw [hstep, List.mem_cons, List.mem_cons]
      rcases hm with hm | hm
      · rcases max_choice a e with h | h
        · left; rw [hm, h]
        · right; left; rw [hm, h]
      · right; right; exact hm
    · intro b hb
      rw [List.mem_cons, List.mem_cons] at hb
      rcases hb with hb | hb | hb
      · subst hb; rw [hstep]; exact le_trans (le_max_left _ _) hhead
      · subst hb; rw [hstep]; exact le_trans (le_max_right _ _) hhead
      · rw [hstep]; exact hle b (List.mem_cons_of_mem _ hb)

theorem min?_spec {l : List ℚ} {m : ℚ} (h : l.min? = some m) :
    m ∈ l ∧ ∀ b ∈ l, m ≤ b := by
  cases l with
  | nil => simp [List.min?] at h
  | cons a t =>
    simp only [List.min?, Option.some.injEq] at h
    subst h
    exact foldl_min_spec t a

theorem max?_spec {l : List ℚ} {m : ℚ} (h : l.max? = some m) :
    m ∈ l ∧ ∀ b ∈ l, b ≤ m := by
  cases l with
  | nil => simp [List.max?] at h
  | cons a t =>
    simp only [List.max?, Option.some.injEq] at h
    subst h
    exact foldl_max_spec t a

theorem mem_mergeSort {α : Type} {le : α → α → Bool} {l : List α} {x : α} :
    x ∈ l.mergeSort le ↔ x ∈ l :=
  (List.mergeSort_perm l le).mem_iff

theorem nodup_mergeSort {α : Type} {le : α → α → Bool} {l : List α} (h : l.Nodup) :
    (l.mergeSort le).Nodup :=
  ((List.mergeSort_perm l le).nodup_iff).mpr h

theorem lookup_isSome_iff {β : Type} (l : List (String × β)) (k : String) :
    (l.lookup k).isSome = true ↔ k ∈ l.map Prod.fst := by
  induction l with
  | nil => simp [List.lookup]
  | cons p t ih =>
    obtain ⟨k', b⟩ := p
    by_cases h : k = k'
    · subst h; simp [List.lookup]
    · have hbeq : (k == k') = false := by
        simp only [beq_eq_false_iff_ne, ne_eq]; exact h
      simp [List.lookup, hbeq, ih, h]

theorem lookup_mem {β : Type} {l : List (String × β)} {k : String} {b : β}
    (h : l.lookup k = some b) : (k, b) ∈ l := by
  induction l with
  | nil => simp [List.lookup] at h
  | cons p t ih =>
    obtain ⟨k', b'⟩ := p
    by_cases hk : k = k'
    · subst hk
      simp only [List.lookup, beq_self_eq_true, Option.some.injEq] at h
      subst h; exact List.mem_cons_self _ _
    · have hbeq : (k == k') = false := by
        simp only [beq_eq_false_iff_ne, ne_eq]; exact hk
      simp only [List.lookup, hbeq] at h
      exact List.mem_cons_of_mem _ (ih h)

theorem mem_groupKeys {l : List Obs} {n : String} {y : Int} :
    (n, y) ∈ groupKeys l ↔ ∃ r ∈ l, r.NAME = n ∧ r.year = y := by
  rw [groupKeys, mem_dedupFirst, List.mem_map]
  constructor
  · rintro ⟨r, hr, heq⟩
    exact ⟨r, hr, congrArg Prod.fst heq, congrArg Prod.snd heq⟩
  · rintro ⟨r, hr, h1, h2⟩
    exact ⟨r, hr, by rw [h1, h2]⟩

theorem mem_yearlyCounts {l : List Obs} {g : YearCount} :
    g ∈ yearlyCounts l ↔
      ((g.NAME, g.year) ∈ groupKeys l ∧
        g.days = (l.filter (fun r =>
          decide (r.NAME = g.NAME) && decide (r.year = g.year))).length) := by
  rw [yearlyCounts, List.mem_map]
  constructor
  · rintro ⟨⟨n, y⟩, hkey, heq⟩
    have h1 : g.NAME = n := by rw [← heq]
    have h2 : g.year = y := by rw [← heq]
    have h3 : g.days = (l.filter (fun r =>
        decide (r.NAME = n) && decide (r.year = y))).length := by rw [← heq]
    rw [h1, h2]
    exact ⟨hkey, h3⟩
  · rintro ⟨hkey, hdays⟩
    refine ⟨(g.NAME, g.year), hkey, ?_⟩
    cases g with
    | mk n y d => simp only at hdays ⊢; rw [← hdays]

theorem yearlyAvg_keys (yearly : List YearCount) :
    (yearlyAvg yearly).map Prod.fst = dedupFirst (yearly.map YearCount.NAME) := by
  rw [yearlyAvg, List.map_map]
  apply List.map_id''
  intro x
  rfl

theorem mem_yearlyAvg {yearly : List YearCount} {p : String × ℚ} :
    p ∈ yearlyAvg yearly ↔
      ((∃ y ∈ yearly, y.NAME = p.1) ∧
        p.2 = ((((yearly.filter (fun y => decide (y.NAME = p.1))).map YearCount.days).sum : ℚ)) /
          ((((yearly.filter (fun y => decide (y.NAME = p.1))).map YearCount.days).length : ℚ))) := by
  rw [yearlyAvg, List.mem_map]
  constructor
  · rintro ⟨n, hn, heq⟩
    rw [mem_dedupFirst, List.mem_map] at hn
    have h1 : p.1 = n := by rw [← heq]
    have h2 : p.2 = ((((yearly.filter (fun y => decide (y.NAME = n))).map YearCount.days).sum : ℚ)) /
        ((((yearly.filter (fun y => decide (y.NAME = n))).map YearCount.days).length : ℚ)) := by
      rw [← heq]
    rw [h1]
    exact ⟨hn, h2⟩
  · rintro ⟨hex, hval⟩
    refine ⟨p.1, ?_, ?_⟩
    · rw [mem_dedupFirst, List.mem_map]; exact hex
    · obtain ⟨a, b⟩ := p
      simp only at hval ⊢
      rw [← hval]

theorem mem_station_list {df : List Obs} {metric : Metric} {row : StationRange} :
    row ∈ station_list df metric ↔
      ∃ r ∈ metricFiltered df metric,
        row = ⟨r.STATION, r.NAME, stationMinDate df metric r.STATION,
               stationMaxDate df metric r.STATION⟩ := by
  rw [station_list, List.mem_flatMap]
  constructor
  · rintro ⟨st, _, hrow⟩
    rw [List.mem_map] at hrow
    obtain ⟨r, hr, heq⟩ := hrow
    rw [stationRows, List.mem_filter, decide_eq_true_eq] at hr
    obtain ⟨hrf, hst⟩ := hr
    exact ⟨r, hrf, by rw [← heq, hst]⟩
  · rintro ⟨r, hrf, heq⟩
    refine ⟨r.STATION, ?_, ?_⟩
    · rw [mem_dedupFirst, List.mem_map]
      exact ⟨r, hrf, rfl⟩
    · rw [List.mem_map]
      refine ⟨r, ?_, heq.symm⟩
      rw [stationRows, List.mem_filter, decide_eq_true_eq]
      exact ⟨hrf, rfl⟩

theorem station_list_eq_nil_iff {df : List Obs} {metric : Metric} :
    station_list df metric = [] ↔ metricFiltered df metric = [] := by
  constructor
  · intro h
    by_contra hne
    obtain ⟨r, hr⟩ := List.exists_mem_of_ne_nil _ hne
    have : (⟨r.STATION, r.NAME, stationMinDate df metric r.STATION,
        stationMaxDate df metric r.STATION⟩ : StationRange) ∈ station_list df metric :=
      mem_station_list.mpr ⟨r, hr, rfl⟩
    rw [h] at this
    simp at this
  · intro h
    rw [station_list, h]
    simp [dedupFirst]

theorem view_eq_error {df : List Obs} {metric : Metric}
    (h : metricFiltered df metric = []) :
    view_station_date_ranges df metric = Except.error "KeyError" := by
  rw [view_station_date_ranges, if_pos]
  rw [List.isEmpty_iff, station_list_eq_nil_iff]
  exact h

theorem view_eq_ok {df : List Obs} {metric : Metric}
    (h : metricFiltered df metric ≠ []) :
    view_station_date_ranges df metric =
      Except.ok ((dedupFirst (station_list df metric)).mergeSort
        (fun r1 r2 => strLe r1.STATION r2.STATION)) := by
  rw [view_station_date_ranges, if_neg]
  rw [List.isEmpty_iff, station_list_eq_nil_iff]
  exact h

theorem mem_view_ok {df : List Obs} {metric : Metric} {out : List StationRange}
    (hout : view_station_date_ranges df metric = Except.ok out) {row : StationRange} :
    row ∈ out ↔ row ∈ station_list df metric := by
  by_cases h : metricFiltered df metric = []
  · rw [view_eq_error h] at hout
    exact absurd hout (by simp)
  · rw [view_eq_ok h] at hout
    have hinj := Except.ok.inj hout
    rw [← hinj, mem_mergeSort, mem_dedupFirst]

/-! ### Claim theorems -/

/-- C8: merging an observation set with itself via the Dataset Merger succeeds
(the schemas agree) and its rows are exactly the distinct rows of the original
set: duplicate-free and with the same membership, so deduplication makes
self-merge idempotent. -/
theorem C8_merge_self_idempotent (S : ObsSet) :
    merge_datasets S S = Except.ok ⟨S.cols, dedupFirst S.rows⟩
    ∧ (dedupFirst S.rows).Nodup
    ∧ (∀ x, x ∈ dedupFirst S.rows ↔ x ∈ S.rows) := by
  refine ⟨?_, nodup_dedupFirst _, fun x => mem_dedupFirst _ x⟩
  rw [merge_datasets, if_pos rfl, dedupFirst_append_self]

/-- C10: `plot_monthly_temp_plots` succeeds exactly when the input's minimum
TMAX is strictly greater than `ylim_low` and its maximum TMAX strictly less
than `ylim_high`; an input containing a TMAX value exactly equal to either
limit is rejected with an `AssertionError`. -/
theorem C10_plot_asserts_strict (df : List Obs) (ylim_low ylim_high : ℚ) :
    (plot_monthly_temp_plots df ylim_low ylim_high = Except.ok () ↔
      ((∃ m, tmaxColMin df = some m ∧ ylim_low < m) ∧
       (∃ M, tmaxColMax df = some M ∧ M < ylim_high)))
    ∧ (∀ r ∈ df, (r.TMAX = some ylim_low ∨ r.TMAX = some ylim_high) →
        plot_monthly_temp_plots df ylim_low ylim_high = Except.error "AssertionError") := by
  constructor
  · constructor
    · intro h
      rw [plot_monthly_temp_plots] at h
      cases hmin : tmaxColMin df with
      | none => rw [hmin] at h; simp at h
      | some m =>
        cases hmax : tmaxColMax df with
        | none =>
          rw [hmin, hmax] at h
          by_cases hl : ylim_low < m
          · simp [hl] at h
          · simp [hl] at h
        | some M =>
          rw [hmin, hmax] at h
          by_cases hl : ylim_low < m
          · by_cases hh : M < ylim_high
            · exact ⟨⟨m, rfl, hl⟩, ⟨M, rfl, hh⟩⟩
            · simp [hl, hh] at h
          · simp [hl] at h
    · rintro ⟨⟨m, hmin, hl⟩, ⟨M, hmax, hh⟩⟩
      rw [plot_monthly_temp_plots, hmin, hmax]
      simp [hl, hh]
  · rintro r hr (hlo | hhi)
    · have hmem : ylim_low ∈ df.filterMap Obs.TMAX :=
        List.mem_filterMap.mpr ⟨r, hr, hlo⟩
      rw [plot_monthly_temp_plots]
      cases hmin : tmaxColMin df with
      | none => simp
      | some m =>
        have hle : m ≤ ylim_low := (min?_spec hmin).2 _ hmem
        have : ¬ ylim_low < m := not_lt.mpr hle
        simp [this]
    · have hmem : ylim_high ∈ df.filterMap Obs.TMAX :=
        List.mem_filterMap.mpr ⟨r, hr, hhi⟩
      rw [plot_monthly_temp_plots]
      cases hmin : tmaxColMin df with
      | none => simp
      | some m =>
        by_cases hl : ylim_low < m
        · cases hmax : tmaxColMax df with
          | none =>
            rw [tmaxColMax, List.max?_eq_none_iff] at hmax
            rw [hmax] at hmem
            simp at hmem
          | some M =>
            have hge : ylim_high ≤ M := (max?_spec hmax).2 _ hmem
            have : ¬ M < ylim_high := not_lt.mpr hge
            simp [hl, this]
        · simp [hl]

/-- Witness for C10: a concrete input whose only TMAX equals the default
lower limit −20 is rejected with an `AssertionError`. -/
theorem C10_witness :
    plot_monthly_temp_plots dfC10 (-20) 120 = Except.error "AssertionError" :=
  (C10_plot_asserts_strict dfC10 (-20) 120).2 (mkObs "A" "A" "" 0 none (some (-20)))
    (by with_unfolding_all decide) (Or.inl rfl)

/-- C2: every per-(station, year) row produced by `ideal_temp` counts exactly
the input rows of that station name and year whose metric value `v` satisfies
`lower ≤ v ≤ upper`, both boundaries inclusive. -/
theorem C2_ideal_temp_inclusive_count (df : List Obs) (m : Metric) (lo hi : ℚ)
    (g : YearCount) (hg : g ∈ ideal_temp df m lo hi) :
    g.days = df.countP (fun r => decide (r.NAME = g.NAME ∧ r.year = g.year ∧
      inBand (r.metric m) lo hi)) := by
  rw [ideal_temp] at hg
  obtain ⟨_, hdays⟩ := mem_yearlyCounts.mp hg
  rw [hdays, idealFiltered, List.filter_filter, List.countP_eq_length_filter]
  congr 1
  apply List.filter_congr
  intro r _
  rw [Bool.eq_iff_iff]
  cases hrm : r.metric m with
  | none => simp [optGe, optLe, hrm, inBand]
  | some v =>
    simp only [optGe, optLe, hrm, inBand, Bool.and_eq_true, decide_eq_true_eq,
      Option.some.injEq]
    constructor
    · rintro ⟨⟨hn, hy⟩, hge, hle⟩
      exact ⟨hn, hy, ⟨v, rfl, ⟨hge, hle⟩⟩⟩
    · rintro ⟨hn, hy, ⟨v', hv', hge, hle⟩⟩
      subst hv'
      exact ⟨⟨hn, hy⟩, hge, hle⟩

set_option maxRecDepth 8000 in
/-- Witness for C2: the spec's example — station "A", year 2020, TMAX values
55, 60, 65, 75, 80 with bounds [60, 75] — yields the single row ("A", 2020, 3),
and 3 is the inclusive-band count. -/
theorem C2_witness :
    ideal_temp dfC2 Metric.TMAX 60 75 = [⟨"A", 2020, 3⟩] ∧
    (3 : Nat) = dfC2.countP (fun r => decide (r.NAME = "A" ∧ r.year = 2020 ∧
      inBand (r.metric Metric.TMAX) 60 75)) := by
  constructor
  · with_unfolding_all decide
  · exact C2_ideal_temp_inclusive_count dfC2 Metric.TMAX 60 75 ⟨"A", 2020, 3⟩
      (by with_unfolding_all decide)

theorem names_yearlyCounts (l : List Obs) (n : String) :
    (∃ g ∈ yearlyCounts l, g.NAME = n) ↔ ∃ r ∈ l, r.NAME = n := by
  constructor
  · rintro ⟨g, hg, hname⟩
    obtain ⟨hkey, _⟩ := mem_yearlyCounts.mp hg
    rw [hname] at hkey
    obtain ⟨r, hr, hn, _⟩ := mem_groupKeys.mp hkey
    exact ⟨r, hr, hn⟩
  · rintro ⟨r, hr, hname⟩
    have hkey : (n, r.year) ∈ groupKeys l := mem_groupKeys.mpr ⟨r, hr, hname, rfl⟩
    refine ⟨⟨n, r.year,
      (l.filter (fun x => decide (x.NAME = n) && decide (x.year = r.year))).length⟩,
      ?_, rfl⟩
    rw [mem_yearlyCounts]
    exact ⟨hkey, rfl⟩

theorem names_yearlyAvg (yearly : List YearCount) (n : String) :
    (∃ p ∈ yearlyAvg yearly, p.1 = n) ↔ ∃ g ∈ yearly, g.NAME = n := by
  constructor
  · rintro ⟨p, hp, h1⟩
    obtain ⟨hex, _⟩ := mem_yearlyAvg.mp hp
    rw [h1] at hex
    exact hex
  · rintro hex
    refine ⟨(n, ((((yearly.filter (fun y => decide (y.NAME = n))).map YearCount.days).sum : ℚ)) /
      ((((yearly.filter (fun y => decide (y.NAME = n))).map YearCount.days).length : ℚ))),
      mem_yearlyAvg.mpr ⟨hex, rfl⟩, rfl⟩

theorem dedupFirst_nil {α : Type} [DecidableEq α] : dedupFirst ([] : List α) = [] := by
  rw [dedupFirst]

theorem yearlyCounts_nil : yearlyCounts [] = [] := by
  rw [yearlyCounts, groupKeys, List.map_nil, dedupFirst_nil, List.map_nil]

theorem yearlyAvg_nil : yearlyAvg [] = [] := by
  rw [yearlyAvg, List.map_nil, dedupFirst_nil, List.map_nil]

/-- Counterexample to C6: an input whose every row has a null TMIN (checked by
the first conjunct) makes `view_station_date_ranges` fail with a `KeyError`
instead of returning an empty result. -/
theorem C6_counterexample :
    dfC6.all (fun r => (r.metric Metric.TMIN).isNone) = true ∧
    view_station_date_ranges dfC6 Metric.TMIN = Except.error "KeyError" :=
  ⟨rfl, view_eq_error rfl⟩

/-- C6 (amended): an input that is empty after the derivation's filtering step
yields an empty output for `ideal_temp` and `non_ideal_temp_days`, but makes
`view_station_date_ranges` raise a `KeyError` (the final column selection of
the empty, column-less concatenated frame). -/
theorem C6_empty_after_filter (df : List Obs) (m : Metric) (lo hi t1 t2 : ℚ) :
    (metricFiltered df m = [] →
      view_station_date_ranges df m = Except.error "KeyError")
    ∧ (idealFiltered df m lo hi = [] →
        ideal_temp df m lo hi = [] ∧ ideal_temp_avg df m lo hi = [])
    ∧ ((tooColdRows df t1 = [] ∨ tooHotRows df t2 = []) →
        non_ideal_temp_days df t1 t2 = []) := by
  refine ⟨fun h => view_eq_error h, fun h => ?_, fun h => ?_⟩
  · have h1 : ideal_temp df m lo hi = [] := by
      rw [ideal_temp, h, yearlyCounts_nil]
    refine ⟨h1, ?_⟩
    rw [ideal_temp_avg, h1, yearlyAvg_nil, List.mergeSort_nil]
  · rcases h with h | h
    · rw [non_ideal_temp_days, h, yearlyCounts_nil, yearlyAvg_nil]
      rw [List.filterMap_nil, List.mergeSort_nil]
    · rw [non_ideal_temp_days, h, yearlyCounts_nil, yearlyAvg_nil]
      have hfm : (yearlyAvg (yearlyCounts (tooColdRows df t1))).filterMap
          (fun c => ((([] : List (String × ℚ)).lookup c.1).map
            (fun hq => (⟨c.1, roundHalfEven c.2, roundHalfEven hq,
              roundHalfEven c.2 + roundHalfEven hq⟩ : TooRow)))) = [] :=
        List.filterMap_eq_nil_iff.mpr (fun c _ => rfl)
      rw [hfm, List.mergeSort_nil]

/-- Witness for C6 (amended) at a concrete input: a single row with null TMIN
(and TMAX 50) makes the first derivation error and the other two empty, with
bounds/thresholds its rows never meet. -/
theorem C6_witness :
    view_station_date_ranges dfC6 Metric.TMIN = Except.error "KeyError" ∧
    ideal_temp dfC6 Metric.TMIN 0 100 = [] ∧
    non_ideal_temp_days dfC6 (-100) 1000 = [] := by
  refine ⟨(C6_empty_after_filter dfC6 Metric.TMIN 0 100 (-100) 1000).1 rfl,
    ((C6_empty_after_filter dfC6 Metric.TMIN 0 100 (-100) 1000).2.1 rfl).1,
    (C6_empty_after_filter dfC6 Metric.TMIN 0 100 (-100) 1000).2.2 (Or.inl rfl)⟩

/-- C7: a station name appears in the output of `non_ideal_temp_days` if and
only if the input has at least one row for it passing the too-cold filter
(TMIN ≤ threshold) and at least one passing the too-hot filter
(TMAX ≥ threshold) — inner-join semantics of the merge on NAME. -/
theorem C7_inner_join_membership (df : List Obs) (t1 t2 : ℚ) (n : String) :
    (∃ t ∈ non_ideal_temp_days df t1 t2, t.NAME = n) ↔
      ((∃ r ∈ df, r.NAME = n ∧ optLe r.TMIN t1 = true) ∧
       (∃ r ∈ df, r.NAME = n ∧ optGe r.TMAX t2 = true)) := by
  have hcold : ∀ r : Obs, r ∈ tooColdRows df t1 ↔ (r ∈ df ∧ optLe r.TMIN t1 = true) := by
    intro r
    rw [tooColdRows, List.mem_filter]
  have hhot : ∀ r : Obs, r ∈ tooHotRows df t2 ↔ (r ∈ df ∧ optGe r.TMAX t2 = true) := by
    intro r
    rw [tooHotRows, List.mem_filter]
  constructor
  · rintro ⟨t, ht, hname⟩
    simp only [non_ideal_temp_days] at ht
    rw [mem_mergeSort, List.mem_filterMap] at ht
    obtain ⟨c, hc, hmap⟩ := ht
    rw [Option.map_eq_some'] at hmap
    obtain ⟨hq, hlook, hteq⟩ := hmap
    have hc1 : c.1 = n := by rw [← hname, ← hteq]
    constructor
    · have hex : ∃ p ∈ yearlyAvg (yearlyCounts (tooColdRows df t1)), p.1 = n :=
        ⟨c, hc, hc1⟩
      obtain ⟨g, hg, hgn⟩ := (names_yearlyAvg _ n).mp hex
      obtain ⟨r, hr, hrn⟩ := (names_yearlyCounts _ n).mp ⟨g, hg, hgn⟩
      obtain ⟨hrdf, hrle⟩ := (hcold r).mp hr
      exact ⟨r, hrdf, hrn, hrle⟩
    · have hsome : ((yearlyAvg (yearlyCounts (tooHotRows df t2))).lookup n).isSome = true := by
        rw [← hc1, hlook]
        rfl
      rw [lookup_isSome_iff, List.mem_map] at hsome
      obtain ⟨p, hp, hpn⟩ := hsome
      obtain ⟨g, hg, hgn⟩ := (names_yearlyAvg _ n).mp ⟨p, hp, hpn⟩
      obtain ⟨r, hr, hrn⟩ := (names_yearlyCounts _ n).mp ⟨g, hg, hgn⟩
      obtain ⟨hrdf, hrge⟩ := (hhot r).mp hr
      exact ⟨r, hrdf, hrn, hrge⟩
  · rintro ⟨⟨rc, hrc, hrcn, hrcle⟩, ⟨rh, hrh, hrhn, hrhge⟩⟩
    have hcex : ∃ g ∈ yearlyCounts (tooColdRows df t1), g.NAME = n :=
      (names_yearlyCounts _ n).mpr ⟨rc, (hcold rc).mpr ⟨hrc, hrcle⟩, hrcn⟩
    obtain ⟨c, hc, hc1⟩ := (names_yearlyAvg _ n).mpr hcex
    have hhex : ∃ g ∈ yearlyCounts (tooHotRows df t2), g.NAME = n :=
      (names_yearlyCounts _ n).mpr ⟨rh, (hhot rh).mpr ⟨hrh, hrhge⟩, hrhn⟩
    obtain ⟨p, hp, hp1⟩ := (names_yearlyAvg _ n).mpr hhex
    have hsome : ((yearlyAvg (yearlyCounts (tooHotRows df t2))).lookup n).isSome = true := by
      rw [lookup_isSome_iff, List.mem_map]
      exact ⟨p, hp, hp1⟩
    rw [Option.isSome_iff_exists] at hsome
    obtain ⟨hq, hlook⟩ := hsome
    refine ⟨⟨n, roundHalfEven c.2, roundHalfEven hq,
      roundHalfEven c.2 + roundHalfEven hq⟩, ?_, rfl⟩
    simp only [non_ideal_temp_days]
    rw [mem_mergeSort, List.mem_filterMap]
    refine ⟨c, hc, ?_⟩
    rw [hc1, hlook]
    rfl

/-- Witness for C7 at a concrete input: the iff instantiated at the one-row
frame `dfC6` (whose row has a null TMIN, so "N" is absent from the output). -/
theorem C7_witness :
    (∃ t ∈ non_ideal_temp_days dfC6 (-100) 1000, t.NAME = "N") ↔
      ((∃ r ∈ dfC6, r.NAME = "N" ∧ optLe r.TMIN (-100) = true) ∧
       (∃ r ∈ dfC6, r.NAME = "N" ∧ optGe r.TMAX 1000 = true)) :=
  C7_inner_join_membership dfC6 (-100) 1000 "N"

theorem mem_metricFiltered {df : List Obs} {metric : Metric} {r : Obs} :
    r ∈ metricFiltered df metric ↔ (r ∈ df ∧ (r.metric metric).isSome = true) := by
  rw [metricFiltered, List.mem_filter]

theorem mem_stationRows {df : List Obs} {metric : Metric} {st : String} {r : Obs} :
    r ∈ stationRows df metric st ↔
      (r ∈ df ∧ (r.metric metric).isSome = true ∧ r.STATION = st) := by
  rw [stationRows, List.mem_filter, mem_metricFiltered, decide_eq_true_eq, and_assoc]

theorem stationMinDate_spec {df : List Obs} {metric : Metric} {st : String}
    (h : stationRows df metric st ≠ []) :
    (∃ r ∈ stationRows df metric st, r.DATE = stationMinDate df metric st) ∧
    ∀ r ∈ stationRows df metric st, strLe (stationMinDate df metric st) r.DATE = true := by
  obtain ⟨d, hd⟩ : ∃ d, minStr ((stationRows df metric st).map Obs.DATE) = some d := by
    cases hl : stationRows df metric st with
    | nil => exact absurd hl h
    | cons a t => exact ⟨_, rfl⟩
  have hmin : stationMinDate df metric st = d := by
    rw [stationMinDate, hd]
    rfl
  obtain ⟨hmem, hle⟩ := minStr_spec hd
  obtain ⟨r0, hr0, hr0d⟩ := List.mem_map.mp hmem
  refine ⟨⟨r0, hr0, by rw [hr0d, hmin]⟩, fun r hr => ?_⟩
  rw [hmin]
  exact hle r.DATE (List.mem_map_of_mem _ hr)

theorem stationMaxDate_spec {df : List Obs} {metric : Metric} {st : String}
    (h : stationRows df metric st ≠ []) :
    (∃ r ∈ stationRows df metric st, r.DATE = stationMaxDate df metric st) ∧
    ∀ r ∈ stationRows df metric st, strLe r.DATE (stationMaxDate df metric st) = true := by
  obtain ⟨d, hd⟩ : ∃ d, maxStr ((stationRows df metric st).map Obs.DATE) = some d := by
    cases hl : stationRows df metric st with
    | nil => exact absurd hl h
    | cons a t => exact ⟨_, rfl⟩
  have hmax : stationMaxDate df metric st = d := by
    rw [stationMaxDate, hd]
    rfl
  obtain ⟨hmem, hle⟩ := maxStr_spec hd
  obtain ⟨r0, hr0, hr0d⟩ := List.mem_map.mp hmem
  refine ⟨⟨r0, hr0, by rw [hr0d, hmax]⟩, fun r hr => ?_⟩
  rw [hmax]
  exact hle r.DATE (List.mem_map_of_mem _ hr)

theorem length_le_one_of_nodup_of_all_eq {α : Type} {l : List α} {v : α}
    (hn : l.Nodup) (h : ∀ x ∈ l, x = v) : l.length ≤ 1 := by
  cases l with
  | nil => simp
  | cons a t =>
    cases t with
    | nil => simp
    | cons b u =>
      exfalso
      rw [List.nodup_cons] at hn
      have hab : a = v := h a (List.mem_cons_self _ _)
      have hbb : b = v := h b (List.mem_cons_of_mem _ (List.mem_cons_self _ _))
      exact hn.1 (by rw [hab, ← hbb]; exact List.mem_cons_self _ _)

/-- C4: whenever `view_station_date_ranges` returns a table, a station
identifier appears in it iff the input has a row for it surviving the
null-metric filter; every output row's `min_date`/`max_date` are observed
dates of that station bounding all of its observed dates from below resp.
above; and the table is sorted by station identifier. -/
theorem C4_station_date_ranges (df : List Obs) (metric : Metric)
    (out : List StationRange)
    (hout : view_station_date_ranges df metric = Except.ok out) :
    (∀ st : String, (∃ r ∈ df, (r.metric metric).isSome = true ∧ r.STATION = st) ↔
        (∃ row ∈ out, row.STATION = st))
    ∧ (∀ row ∈ out,
        (∃ r ∈ df, (r.metric metric).isSome = true ∧ r.STATION = row.STATION ∧
          r.DATE = row.min_date) ∧
        (∃ r ∈ df, (r.metric metric).isSome = true ∧ r.STATION = row.STATION ∧
          r.DATE = row.max_date) ∧
        (∀ r ∈ df, (r.metric metric).isSome = true → r.STATION = row.STATION →
          strLe row.min_date r.DATE = true ∧ strLe r.DATE row.max_date = true))
    ∧ List.Pairwise (fun a b => strLe a.STATION b.STATION = true) out := by
  have hne : metricFiltered df metric ≠ [] := by
    intro h
    rw [view_eq_error h] at hout
    exact absurd hout (by simp)
  refine ⟨?_, ?_, ?_⟩
  · intro st
    constructor
    · rintro ⟨r, hr, hsome, hst⟩
      refine ⟨⟨r.STATION, r.NAME, stationMinDate df metric r.STATION,
        stationMaxDate df metric r.STATION⟩, ?_, hst⟩
      rw [mem_view_ok hout, mem_station_list]
      exact ⟨r, mem_metricFiltered.mpr ⟨hr, hsome⟩, rfl⟩
    · rintro ⟨row, hrow, hst⟩
      rw [mem_view_ok hout, mem_station_list] at hrow
      obtain ⟨r, hr, heq⟩ := hrow
      obtain ⟨hrdf, hsome⟩ := mem_metricFiltered.mp hr
      refine ⟨r, hrdf, hsome, ?_⟩
      rw [← hst, heq]
  · intro row hrow
    rw [mem_view_ok hout, mem_station_list] at hrow
    obtain ⟨r, hr, heq⟩ := hrow
    have hrowst : row.STATION = r.STATION := by rw [heq]
    have hrowmin : row.min_date = stationMinDate df metric r.STATION := by rw [heq]
    have hrowmax : row.max_date = stationMaxDate df metric r.STATION := by rw [heq]
    have hrmem : r ∈ stationRows df metric r.STATION :=
      mem_stationRows.mpr ⟨(mem_metricFiltered.mp hr).1, (mem_metricFiltered.mp hr).2, rfl⟩
    have hsne : stationRows df metric r.STATION ≠ [] := by
      intro hnil
      rw [hnil] at hrmem
      simp at hrmem
    obtain ⟨⟨rmin, hrmin, hrmind⟩, hminle⟩ := stationMinDate_spec hsne
    obtain ⟨⟨rmax, hrmax, hrmaxd⟩, hmaxle⟩ := stationMaxDate_spec hsne
    obtain ⟨hmin1, hmin2, hmin3⟩ := mem_stationRows.mp hrmin
    obtain ⟨hmax1, hmax2, hmax3⟩ := mem_stationRows.mp hrmax
    refine ⟨⟨rmin, hmin1, hmin2, by rw [hmin3, hrowst], by rw [hrmind, hrowmin]⟩,
      ⟨rmax, hmax1, hmax2, by rw [hmax3, hrowst], by rw [hrmaxd, hrowmax]⟩,
      fun r' hr' hsome' hst' => ?_⟩
    have hr'mem : r' ∈ stationRows df metric r.STATION :=
      mem_stationRows.mpr ⟨hr', hsome', by rw [hst', hrowst]⟩
    exact ⟨by rw [hrowmin]; exact hminle r' hr'mem,
           by rw [hrowmax]; exact hmaxle r' hr'mem⟩
  · have hmerge := view_eq_ok hne
    rw [hout] at hmerge
    have hinj := Except.ok.inj hmerge
    rw [hinj]
    exact @List.sorted_mergeSort StationRange
      (fun r1 r2 => strLe r1.STATION r2.STATION)
      (fun a b c hab hbc => strLe_trans hab hbc)
      (fun a b => by rcases strLe_total a.STATION b.STATION with h | h <;> simp [h])
      (dedupFirst (station_list df metric))

/-- Witness for C4: the spec's example — station "S1" with dates 2020-01-01,
2020-06-15, 2020-03-01 — yields min_date 2020-01-01 and max_date 2020-06-15,
and those dates are observed dates of "S1". -/
theorem C4_witness :
    view_station_date_ranges dfC4 Metric.TMIN =
      Except.ok [⟨"S1", "N", "2020-01-01", "2020-06-15"⟩] ∧
    (∃ r ∈ dfC4, (r.metric Metric.TMIN).isSome = true ∧ r.STATION = "S1" ∧
      r.DATE = "2020-01-01") ∧
    (∃ r ∈ dfC4, (r.metric Metric.TMIN).isSome = true ∧ r.STATION = "S1" ∧
      r.DATE = "2020-06-15") := by
  have hne : metricFiltered dfC4 Metric.TMIN ≠ [] := by
    intro h
    rw [show metricFiltered dfC4 Metric.TMIN = dfC4 from rfl] at h
    simp [dfC4] at h
  have hsorted : (dedupFirst (station_list dfC4 Metric.TMIN)).mergeSort
      (fun r1 r2 => strLe r1.STATION r2.STATION) =
      [⟨"S1", "N", "2020-01-01", "2020-06-15"⟩] := by
    with_unfolding_all decide
  have hout : view_station_date_ranges dfC4 Metric.TMIN =
      Except.ok [⟨"S1", "N", "2020-01-01", "2020-06-15"⟩] := by
    rw [view_eq_ok hne, hsorted]
  have hrow := (C4_station_date_ranges dfC4 Metric.TMIN _ hout).2.1
    ⟨"S1", "N", "2020-01-01", "2020-06-15"⟩ (List.mem_singleton.mpr rfl)
  exact ⟨hout, hrow.1, hrow.2.1⟩

/-- Counterexample to C5: a station identifier appearing under two station
names produces two output rows for that single distinct identifier, so the
output does not contain exactly one row per distinct station identifier. -/
theorem C5_counterexample :
    view_station_date_ranges dfC5 Metric.TMIN =
      Except.ok [⟨"S", "N1", "2020-01-01", "2020-01-01"⟩,
                 ⟨"S", "N2", "2020-01-01", "2020-01-01"⟩] ∧
    dedupFirst (dfC5.map Obs.STATION) = ["S"] := by
  have hne : metricFiltered dfC5 Metric.TMIN ≠ [] := by
    intro h
    rw [show metricFiltered dfC5 Metric.TMIN = dfC5 from rfl] at h
    simp [dfC5] at h
  have hsorted : (dedupFirst (station_list dfC5 Metric.TMIN)).mergeSort
      (fun r1 r2 => strLe r1.STATION r2.STATION) =
      [⟨"S", "N1", "2020-01-01", "2020-01-01"⟩,
       ⟨"S", "N2", "2020-01-01", "2020-01-01"⟩] := by
    with_unfolding_all decide
  refine ⟨by rw [view_eq_ok hne, hsorted], by with_unfolding_all decide⟩

/-- C5 (amended): the output of `view_station_date_ranges` contains exactly
one row per distinct (station identifier, station name) pair present after the
null filter — never more than one row per pair, and one iff the pair occurs;
a station identifier appearing under k distinct names yields k rows. -/
theorem C5_one_row_per_station_name (df : List Obs) (metric : Metric)
    (out : List StationRange)
    (hout : view_station_date_ranges df metric = Except.ok out) (st nm : String) :
    (out.countP (fun row => decide (row.STATION = st ∧ row.NAME = nm)) = 1 ↔
      ∃ r ∈ df, (r.metric metric).isSome = true ∧ r.STATION = st ∧ r.NAME = nm) ∧
    out.countP (fun row => decide (row.STATION = st ∧ row.NAME = nm)) ≤ 1 := by
  have hne : metricFiltered df metric ≠ [] := by
    intro h
    rw [view_eq_error h] at hout
    exact absurd hout (by simp)
  have hnodup : out.Nodup := by
    have hmerge := view_eq_ok hne
    rw [hout] at hmerge
    have hinj := Except.ok.inj hmerge
    rw [hinj]
    exact nodup_mergeSort (nodup_dedupFirst _)
  have hall : ∀ row ∈ out, (row.STATION = st ∧ row.NAME = nm) →
      row = ⟨st, nm, stationMinDate df metric st, stationMaxDate df metric st⟩ := by
    intro row hrow ⟨h1, h2⟩
    rw [mem_view_ok hout, mem_station_list] at hrow
    obtain ⟨r, _, heq⟩ := hrow
    have hrst : r.STATION = st := by rw [heq] at h1; exact h1
    rw [heq, hrst]
    have hrnm : r.NAME = nm := by rw [heq] at h2; exact h2
    rw [hrnm]
  have hle : out.countP (fun row => decide (row.STATION = st ∧ row.NAME = nm)) ≤ 1 := by
    rw [List.countP_eq_length_filter]
    apply length_le_one_of_nodup_of_all_eq (hnodup.filter _)
    intro row hrow
    rw [List.mem_filter, decide_eq_true_eq] at hrow
    exact hall row hrow.1 hrow.2
  refine ⟨⟨fun h1 => ?_, fun hex => ?_⟩, hle⟩
  · have hpos : 0 < (out.filter (fun row =>
        decide (row.STATION = st ∧ row.NAME = nm))).length := by
      rw [← List.countP_eq_length_filter, h1]
      exact Nat.zero_lt_one
    obtain ⟨row, hrow⟩ := List.exists_mem_of_ne_nil _ (List.ne_nil_of_length_pos hpos)
    rw [List.mem_filter, decide_eq_true_eq] at hrow
    obtain ⟨hrow1, hst, hnm⟩ := hrow
    rw [mem_view_ok hout, mem_station_list] at hrow1
    obtain ⟨r, hr, heq⟩ := hrow1
    obtain ⟨hrdf, hsome⟩ := mem_metricFiltered.mp hr
    refine ⟨r, hrdf, hsome, ?_, ?_⟩
    · rw [← hst, heq]
    · rw [← hnm, heq]
  · obtain ⟨r, hrdf, hsome, hst, hnm⟩ := hex
    have hrow : (⟨r.STATION, r.NAME, stationMinDate df metric r.STATION,
        stationMaxDate df metric r.STATION⟩ : StationRange) ∈ out := by
      rw [mem_view_ok hout, mem_station_list]
      exact ⟨r, mem_metricFiltered.mpr ⟨hrdf, hsome⟩, rfl⟩
    have hmem : (⟨r.STATION, r.NAME, stationMinDate df metric r.STATION,
        stationMaxDate df metric r.STATION⟩ : StationRange) ∈
        out.filter (fun row => decide (row.STATION = st ∧ row.NAME = nm)) := by
      rw [List.mem_filter, decide_eq_true_eq]
      exact ⟨hrow, hst, hnm⟩
    have hpos : 0 < (out.filter (fun row =>
        decide (row.STATION = st ∧ row.NAME = nm))).length :=
      List.length_pos.mpr (List.ne_nil_of_mem hmem)
    rw [List.countP_eq_length_filter]
    rw [List.countP_eq_length_filter] at hle
    omega

/-- Witness for C5 (amended): on the two-name input, the pair ("S", "N1")
occurs exactly once in the output. -/
theorem C5_witness :
    ([⟨"S", "N1", "2020-01-01", "2020-01-01"⟩,
      ⟨"S", "N2", "2020-01-01", "2020-01-01"⟩] : List StationRange).countP
      (fun row => decide (row.STATION = "S" ∧ row.NAME = "N1")) = 1 := by
  have hne : metricFiltered dfC5 Metric.TMIN ≠ [] := by
    intro h
    rw [show metricFiltered dfC5 Metric.TMIN = dfC5 from rfl] at h
    simp [dfC5] at h
  have hsorted : (dedupFirst (station_list dfC5 Metric.TMIN)).mergeSort
      (fun r1 r2 => strLe r1.STATION r2.STATION) =
      [⟨"S", "N1", "2020-01-01", "2020-01-01"⟩,
       ⟨"S", "N2", "2020-01-01", "2020-01-01"⟩] := by
    with_unfolding_all decide
  have hout : view_station_date_ranges dfC5 Metric.TMIN =
      Except.ok [⟨"S", "N1", "2020-01-01", "2020-01-01"⟩,
                 ⟨"S", "N2", "2020-01-01", "2020-01-01"⟩] := by
    rw [view_eq_ok hne, hsorted]
  exact (C5_one_row_per_station_name dfC5 Metric.TMIN _ hout "S" "N1").1.mpr
    ⟨mkObs "S" "N1" "2020-01-01" 2020 (some 1) none,
      by simp [dfC5], rfl, rfl, rfl⟩

theorem nodup_groupKeys (l : List Obs) : (groupKeys l).Nodup :=
  nodup_dedupFirst _

theorem yearlyAvg_value {l : List Obs} {n : String} {q : ℚ}
    (h : (n, q) ∈ yearlyAvg (yearlyCounts l)) :
    q = (∑ y in ((l.filter (fun r => decide (r.NAME = n))).map Obs.year).toFinset,
          (((l.filter (fun r => decide (r.NAME = n) && decide (r.year = y))).length : ℚ))) /
        ((((l.filter (fun r => decide (r.NAME = n))).map Obs.year).toFinset.card : ℚ)) := by
  obtain ⟨_, hval⟩ := mem_yearlyAvg.mp h
  have hcs : (yearlyCounts l).filter (fun g => decide (g.NAME = n)) =
      ((groupKeys l).filter (fun g => decide (g.1 = n))).map (fun g =>
        (⟨g.1, g.2,
          (l.filter (fun r => decide (r.NAME = g.1) && decide (r.year = g.2))).length⟩ :
          YearCount)) := by
    rw [yearlyCounts, List.filter_map]
    rfl
  have hKnodup : ((groupKeys l).filter (fun g => decide (g.1 = n))).Nodup :=
    (nodup_groupKeys l).filter _
  have hYnodup : (((groupKeys l).filter (fun g => decide (g.1 = n))).map Prod.snd).Nodup := by
    apply hKnodup.map_on
    intro x hx y hy hxy
    rw [List.mem_filter, decide_eq_true_eq] at hx hy
    exact Prod.ext (hx.2.trans hy.2.symm) hxy
  have hcs2 : ((yearlyCounts l).filter (fun g => decide (g.NAME = n))).map YearCount.days =
      (((groupKeys l).filter (fun g => decide (g.1 = n))).map Prod.snd).map
        (fun y => (l.filter (fun r => decide (r.NAME = n) && decide (r.year = y))).length) := by
    rw [hcs, List.map_map, List.map_map]
    apply List.map_congr_left
    intro g hg
    rw [List.mem_filter, decide_eq_true_eq] at hg
    simp only [Function.comp]
    rw [hg.2]
  have hYfin : (((groupKeys l).filter (fun g => decide (g.1 = n))).map Prod.snd).toFinset =
      ((l.filter (fun r => decide (r.NAME = n))).map Obs.year).toFinset := by
    apply Finset.ext
    intro y
    rw [List.mem_toFinset, List.mem_toFinset, List.mem_map, List.mem_map]
    constructor
    · rintro ⟨g, hg, hgy⟩
      rw [List.mem_filter, decide_eq_true_eq] at hg
      have hkey : (n, y) ∈ groupKeys l := by
        have : g = (n, y) := Prod.ext hg.2 hgy
        rw [← this]
        exact hg.1
      obtain ⟨r, hr, hrn, hry⟩ := mem_groupKeys.mp hkey
      refine ⟨r, ?_, hry⟩
      rw [List.mem_filter, decide_eq_true_eq]
      exact ⟨hr, hrn⟩
    · rintro ⟨r, hr, hry⟩
      rw [List.mem_filter, decide_eq_true_eq] at hr
      refine ⟨(n, y), ?_, rfl⟩
      rw [List.mem_filter, decide_eq_true_eq]
      exact ⟨mem_groupKeys.mpr ⟨r, hr.1, hr.2, hry⟩, rfl⟩
  have hval2 : q =
      ((((((yearlyCounts l).filter (fun g => decide (g.NAME = n))).map YearCount.days).sum : ℕ) : ℚ)) /
      ((((yearlyCounts l).filter (fun g => decide (g.NAME = n))).map YearCount.days).length : ℚ) := hval
  rw [hval2, hcs2]
  have hsum : ((((((groupKeys l).filter (fun g => decide (g.1 = n))).map Prod.snd).map
      (fun y => (l.filter (fun r => decide (r.NAME = n) && decide (r.year = y))).length)).sum : ℕ) : ℚ) =
      ∑ y in ((l.filter (fun r => decide (r.NAME = n))).map Obs.year).toFinset,
        (((l.filter (fun r => decide (r.NAME = n) && decide (r.year = y))).length : ℚ)) := by
    rw [Nat.cast_list_sum, List.map_map, ← hYfin,
      List.sum_toFinset _ hYnodup, List.map_map]
    apply congrArg List.sum
    rw [List.map_map]
    apply List.map_congr_left
    intro g _
    rfl
  have hlen : (((((groupKeys l).filter (fun g => decide (g.1 = n))).map Prod.snd).map
      (fun y => (l.filter (fun r => decide (r.NAME = n) && decide (r.year = y))).length)).length : ℚ) =
      ((((l.filter (fun r => decide (r.NAME = n))).map Obs.year).toFinset.card : ℚ)) := by
    rw [List.length_map, ← hYfin, List.toFinset_card_of_nodup hYnodup]
  rw [hsum, hlen]

theorem avg_too_cold_eq {df : List Obs} {t1 : ℚ} {n : String} {q : ℚ}
    (h : (n, q) ∈ yearlyAvg (yearlyCounts (tooColdRows df t1))) :
    q = spec_avg_too_cold df t1 n := by
  rw [yearlyAvg_value h, spec_avg_too_cold]
  have hyears : ((tooColdRows df t1).filter (fun r => decide (r.NAME = n))).map Obs.year =
      (df.filter (fun r => decide (r.NAME = n) && optLe r.TMIN t1)).map Obs.year := by
    rw [tooColdRows, List.filter_filter]
  have hcnt : ∀ y : Int,
      ((tooColdRows df t1).filter (fun r =>
        decide (r.NAME = n) && decide (r.year = y))).length =
      spec_too_cold_count df t1 n y := by
    intro y
    rw [tooColdRows, List.filter_filter, spec_too_cold_count,
      List.countP_eq_length_filter]
  rw [spec_too_cold_years, ← hyears]
  congr 1
  apply Finset.sum_congr rfl
  intro y _
  rw [hcnt y]

theorem avg_too_hot_eq {df : List Obs} {t2 : ℚ} {n : String} {q : ℚ}
    (h : (n, q) ∈ yearlyAvg (yearlyCounts (tooHotRows df t2))) :
    q = spec_avg_too_hot df t2 n := by
  rw [yearlyAvg_value h, spec_avg_too_hot]
  have hyears : ((tooHotRows df t2).filter (fun r => decide (r.NAME = n))).map Obs.year =
      (df.filter (fun r => decide (r.NAME = n) && optGe r.TMAX t2)).map Obs.year := by
    rw [tooHotRows, List.filter_filter]
  have hcnt : ∀ y : Int,
      ((tooHotRows df t2).filter (fun r =>
        decide (r.NAME = n) && decide (r.year = y))).length =
      spec_too_hot_count df t2 n y := by
    intro y
    rw [tooHotRows, List.filter_filter, spec_too_hot_count,
      List.countP_eq_length_filter]
  rw [spec_too_hot_years, ← hyears]
  congr 1
  apply Finset.sum_congr rfl
  intro y _
  rw [hcnt y]

/-- C3: every output row of `non_ideal_temp_days` carries, for its station
name, the rounded (half-to-even, as `np.round`) spec-side average annual
too-cold count (days with TMIN ≤ threshold, averaged over the station's years
present) and too-hot count (days with TMAX ≥ threshold), their sum as
`non_ideal_days`; and the output is sorted ascending by `non_ideal_days`. -/
theorem C3_non_ideal_days (df : List Obs) (t1 t2 : ℚ) (t : TooRow)
    (ht : t ∈ non_ideal_temp_days df t1 t2) :
    (t.avg_days_too_cold = roundHalfEven (spec_avg_too_cold df t1 t.NAME)
    ∧ t.avg_days_too_hot = roundHalfEven (spec_avg_too_hot df t2 t.NAME)
    ∧ t.non_ideal_days = t.avg_days_too_cold + t.avg_days_too_hot)
    ∧ List.Pairwise (fun a b => a.non_ideal_days ≤ b.non_ideal_days)
        (non_ideal_temp_days df t1 t2) := by
  constructor
  · simp only [non_ideal_temp_days] at ht
    rw [mem_mergeSort, List.mem_filterMap] at ht
    obtain ⟨c, hc, hmap⟩ := ht
    rw [Option.map_eq_some'] at hmap
    obtain ⟨hq, hlook, hteq⟩ := hmap
    have hcold : c.2 = spec_avg_too_cold df t1 c.1 := avg_too_cold_eq hc
    have hhot : hq = spec_avg_too_hot df t2 c.1 := avg_too_hot_eq (lookup_mem hlook)
    have hname : t.NAME = c.1 := by rw [← hteq]
    have h1 : t.avg_days_too_cold = roundHalfEven c.2 := by rw [← hteq]
    have h2 : t.avg_days_too_hot = roundHalfEven hq := by rw [← hteq]
    have h3 : t.non_ideal_days = roundHalfEven c.2 + roundHalfEven hq := by rw [← hteq]
    refine ⟨?_, ?_, ?_⟩
    · rw [h1, hcold, hname]
    · rw [h2, hhot, hname]
    · rw [h3, h1, h2]
  · simp only [non_ideal_temp_days]
    have hsorted := @List.sorted_mergeSort TooRow
      (fun a b => decide (a.non_ideal_days ≤ b.non_ideal_days))
      (fun a b c hab hbc => by
        simp only [decide_eq_true_eq] at hab hbc ⊢
        omega)
      (fun a b => by
        rcases le_total a.non_ideal_days b.non_ideal_days with h | h <;> simp [h])
      ((yearlyAvg (yearlyCounts (tooColdRows df t1))).filterMap (fun c =>
        ((yearlyAvg (yearlyCounts (tooHotRows df t2))).lookup c.1).map (fun h =>
          (⟨c.1, roundHalfEven c.2, roundHalfEven h,
            roundHalfEven c.2 + roundHalfEven h⟩ : TooRow))))
    exact hsorted.imp (fun hab => decide_eq_true_eq.mp hab)

set_option maxRecDepth 100000 in
/-- Witness for C3: the spec's example realised — a station averaging 10.4
too-cold days/year (52/5) and 5.6 too-hot days/year (28/5) rounds to 10 and 6
with non_ideal_days = 16. -/
theorem C3_witness :
    non_ideal_temp_days dfC3 32 90 = [⟨"A", 10, 6, 16⟩] ∧
    spec_avg_too_cold dfC3 32 "A" = 52 / 5 ∧
    spec_avg_too_hot dfC3 90 "A" = 28 / 5 ∧
    (10 : Int) = roundHalfEven (spec_avg_too_cold dfC3 32 "A") ∧
    (6 : Int) = roundHalfEven (spec_avg_too_hot dfC3 90 "A") := by
  have hmem : (⟨"A", 10, 6, 16⟩ : TooRow) ∈ non_ideal_temp_days dfC3 32 90 := by
    with_unfolding_all decide
  have h := (C3_non_ideal_days dfC3 32 90 ⟨"A", 10, 6, 16⟩ hmem).1
  exact ⟨by with_unfolding_all decide, by with_unfolding_all decide,
    by with_unfolding_all decide, h.1, h.2.1⟩

theorem mem_pivotYears {df : List Obs} {y : Int} :
    y ∈ pivotYears df ↔ ∃ r ∈ df, r.TMIN.isSome = true ∧ r.year = y := by
  rw [pivotYears, Finset.mem_sort, pivotFinset, List.mem_toFinset, List.mem_map]
  constructor
  · rintro ⟨r, hr, hry⟩
    rw [List.mem_filter] at hr
    exact ⟨r, hr.1, hr.2, hry⟩
  · rintro ⟨r, hr, hsome, hry⟩
    exact ⟨r, List.mem_filter.mpr ⟨hr, hsome⟩, hry⟩

theorem sorted_pivotYears (df : List Obs) :
    (pivotYears df).Sorted (fun y1 y2 => y1 < y2) :=
  Finset.sort_sorted_lt _

theorem nodup_pivotYears (df : List Obs) : (pivotYears df).Nodup :=
  Finset.sort_nodup _ _

theorem mem_stationDataYears {df : List Obs} {n : String} {y : Int} :
    y ∈ stationDataYears df n ↔
      ∃ r ∈ df, r.NAME = n ∧ r.TMIN.isSome = true ∧ r.year = y := by
  rw [stationDataYears, List.mem_toFinset, List.mem_map]
  constructor
  · rintro ⟨r, hr, hry⟩
    rw [List.mem_filter, Bool.and_eq_true, decide_eq_true_eq] at hr
    exact ⟨r, hr.1, hr.2.1, hr.2.2, hry⟩
  · rintro ⟨r, hr, hn, hsome, hry⟩
    refine ⟨r, List.mem_filter.mpr ⟨hr, ?_⟩, hry⟩
    rw [Bool.and_eq_true]
    exact ⟨decide_eq_true hn, hsome⟩

theorem stationDataYears_subset_pivot (df : List Obs) (n : String) :
    stationDataYears df n ⊆ pivotFinset df := by
  intro y hy
  obtain ⟨r, hr, _, hsome, hry⟩ := mem_stationDataYears.mp hy
  rw [pivotFinset, List.mem_toFinset, List.mem_map]
  exact ⟨r, List.mem_filter.mpr ⟨hr, hsome⟩, hry⟩

theorem annualMin_isSome {df : List Obs} {n : String} {y : Int} :
    (annualMin df n y).isSome = true ↔
      ∃ r ∈ df, r.NAME = n ∧ r.year = y ∧ r.TMIN.isSome = true := by
  rw [annualMin, Option.isSome_iff_ne_none, ne_eq, List.min?_eq_none_iff]
  constructor
  · intro hne
    obtain ⟨v, hv⟩ := List.exists_mem_of_ne_nil _ hne
    rw [List.mem_filterMap] at hv
    obtain ⟨r, hr, hrv⟩ := hv
    rw [List.mem_filter, Bool.and_eq_true, decide_eq_true_eq, decide_eq_true_eq] at hr
    exact ⟨r, hr.1, hr.2.1, hr.2.2, by rw [hrv]; rfl⟩
  · rintro ⟨r, hr, hn, hry, hsome⟩ hnil
    obtain ⟨v, hv⟩ := Option.isSome_iff_exists.mp hsome
    have : v ∈ ((df.filter (fun r => decide (r.NAME = n) && decide (r.year = y))).filterMap Obs.TMIN) := by
      rw [List.mem_filterMap]
      refine ⟨r, List.mem_filter.mpr ⟨hr, ?_⟩, hv⟩
      rw [Bool.and_eq_true]
      exact ⟨decide_eq_true hn, decide_eq_true hry⟩
    rw [hnil] at this
    simp at this

theorem sorted_count_lt {l : List Int} (hs : l.Sorted (fun a b => a < b)) :
    ∀ (i : ℕ) (h : i < l.length),
      (l.filter (fun y => decide (y < l.get ⟨i, h⟩))).length = i := by
  induction l with
  | nil => intro i h; simp at h
  | cons a t ih =>
    intro i h
    have hhead := List.rel_of_sorted_cons hs
    have hstail : t.Sorted (fun a b => a < b) := hs.of_cons
    cases i with
    | zero =>
      have hget : (a :: t).get ⟨0, h⟩ = a := rfl
      rw [hget, List.filter_cons]
      have ha : (decide (a < a)) = false := by simp
      rw [ha]
      simp only [Bool.false_eq_true, if_false]
      rw [List.length_eq_zero, List.filter_eq_nil_iff]
      intro b hb
      simp only [decide_eq_true_eq]
      exact not_lt.mpr (le_of_lt (hhead b hb))
    | succ j =>
      have hjt : j < t.length := by
        simp only [List.length_cons] at h
        omega
      have hget : (a :: t).get ⟨j + 1, h⟩ = t.get ⟨j, hjt⟩ := rfl
      rw [hget, List.filter_cons]
      have ha : (decide (a < t.get ⟨j, hjt⟩)) = true := by
        simp only [decide_eq_true_eq]
        exact hhead _ (List.get_mem t j hjt)
      rw [ha]
      simp only [if_true, List.length_cons]
      rw [ih hstail j hjt]

theorem get_of_count {l : List Int} (hs : l.Sorted (fun a b => a < b)) {y : Int}
    (hy : y ∈ l) {j : ℕ}
    (hj : (l.filter (fun z => decide (z < y))).length = j) :
    ∃ h : j < l.length, l.get ⟨j, h⟩ = y := by
  obtain ⟨⟨i, hi⟩, hget⟩ := List.mem_iff_get.mp hy
  have hcnt := sorted_count_lt hs i hi
  rw [hget] at hcnt
  have hij : i = j := by omega
  subst hij
  exact ⟨hi, hget⟩

theorem pivotYears_filter_card (df : List Obs) (x : Int) :
    ((pivotYears df).filter (fun z => decide (z < x))).length =
      ((pivotFinset df).filter (fun z => z < x)).card := by
  have hnodup : ((pivotYears df).filter (fun z => decide (z < x))).Nodup :=
    (nodup_pivotYears df).filter _
  rw [← List.toFinset_card_of_nodup hnodup, List.toFinset_filter]
  rw [pivotYears, Finset.sort_toFinset]
  congr 1
  apply Finset.filter_congr
  intro z _
  simp

theorem pivot_count_eq {df : List Obs} {n : String} {y0 : Int}
    (hS : stationDataYears df n = Finset.Icc y0 (y0 + 29)) :
    ∀ k : ℕ, k ≤ 30 →
      ((pivotFinset df).filter (fun z => z < y0 + k)).card =
        ((pivotFinset df).filter (fun z => z < y0)).card + k := by
  have hsub : Finset.Icc y0 (y0 + 29) ⊆ pivotFinset df := by
    rw [← hS]
    exact stationDataYears_subset_pivot df n
  intro k hk
  have hset : (pivotFinset df).filter (fun z => z < y0 + k) =
      ((pivotFinset df).filter (fun z => z < y0)) ∪ Finset.Ico y0 (y0 + k) := by
    apply Finset.ext
    intro z
    simp only [Finset.mem_filter, Finset.mem_union, Finset.mem_Ico]
    constructor
    · rintro ⟨hz, hlt⟩
      by_cases hz0 : z < y0
      · exact Or.inl ⟨hz, hz0⟩
      · exact Or.inr ⟨not_lt.mp hz0, hlt⟩
    · rintro (⟨hz, hz0⟩ | ⟨hge, hlt⟩)
      · refine ⟨hz, ?_⟩
        omega
      · refine ⟨hsub ?_, hlt⟩
        rw [Finset.mem_Icc]
        omega
  have hdisj : Disjoint ((pivotFinset df).filter (fun z => z < y0))
      (Finset.Ico y0 (y0 + k)) := by
    rw [Finset.disjoint_left]
    intro z hz hz'
    rw [Finset.mem_filter] at hz
    rw [Finset.mem_Ico] at hz'
    omega
  rw [hset, Finset.card_union_of_disjoint hdisj, Int.card_Ico]
  congr 1
  omega

theorem filterMap_eq_map_of_some {α β : Type} {l : List α} {f : α → Option β} {g : α → β}
    (h : ∀ x ∈ l, f x = some (g x)) : l.filterMap f = l.map g := by
  induction l with
  | nil => rfl
  | cons a t ih =>
    rw [List.filterMap_cons, h a (List.mem_cons_self _ _), List.map_cons,
      ih (fun x hx => h x (List.mem_cons_of_mem _ hx))]

/-- C1: the rolling hardiness metric of `tmin_annual_plot`. (i) A station with
exactly 29 years of TMIN data has an entirely missing rolling column. (ii) A
station with exactly 30 consecutive years of data `y0..y0+29` has, at the
pivot row of its 30th year, all 30 annual minimums present and a rolling value
equal to their arithmetic mean. -/
theorem C1_rolling_hardiness (df : List Obs) (n : String) :
    ((stationDataYears df n).card = 29 → ∀ x ∈ hardinessZoneCol df n, x = none)
    ∧ (∀ y0 : Int, stationDataYears df n = Finset.Icc y0 (y0 + 29) →
        ∀ (i : ℕ) (h : i < (pivotYears df).length),
          (pivotYears df).get ⟨i, h⟩ = y0 + 29 →
          ((∀ k : ℕ, k < 30 → (annualMin df n (y0 + (k : ℤ))).isSome = true) ∧
            (hardinessZoneCol df n)[i]? =
              some (some ((((List.range 30).map
                (fun k : ℕ => (annualMin df n (y0 + (k : ℤ))).getD 0)).sum) / 30)))) := by
  have hcoldef : tminAnnualCol df n = (pivotYears df).map (annualMin df n) := rfl
  have hlen : (tminAnnualCol df n).length = (pivotYears df).length := by
    rw [hcoldef, List.length_map]
  constructor
  · intro hcard x hx
    rw [hardinessZoneCol, rolling30Mean, List.mem_map] at hx
    obtain ⟨i, hirange, hxf⟩ := hx
    rw [List.mem_range, hlen] at hirange
    rw [← hxf]
    by_cases h29 : 29 ≤ i
    · have hnot : ¬ ((((tminAnnualCol df n).take (i + 1)).drop (i - 29)).all
          Option.isSome = true) := by
        intro hall
        rw [List.all_eq_true] at hall
        have hw : (((tminAnnualCol df n).take (i + 1)).drop (i - 29)) =
            (((pivotYears df).take (i + 1)).drop (i - 29)).map (annualMin df n) := by
          rw [hcoldef, ← List.map_take, ← List.map_drop]
        have hwlen : ((((pivotYears df).take (i + 1)).drop (i - 29))).length = 30 := by
          rw [List.length_drop, List.length_take, Nat.min_eq_left (by omega)]
          omega
        have hwnodup : ((((pivotYears df).take (i + 1)).drop (i - 29))).Nodup :=
          ((List.drop_sublist _ _).trans (List.take_sublist _ _)).nodup (nodup_pivotYears df)
        have hsubS : ((((pivotYears df).take (i + 1)).drop (i - 29))).toFinset ⊆
            stationDataYears df n := by
          intro y hy
          rw [List.mem_toFinset] at hy
          have hmemw : annualMin df n y ∈
              (((pivotYears df).take (i + 1)).drop (i - 29)).map (annualMin df n) :=
            List.mem_map_of_mem _ hy
          rw [← hw] at hmemw
          have hsome := hall _ hmemw
          obtain ⟨r, hr, hrn, hry, hrs⟩ := annualMin_isSome.mp hsome
          exact mem_stationDataYears.mpr ⟨r, hr, hrn, hrs, hry⟩
        have hcard30 : ((((pivotYears df).take (i + 1)).drop (i - 29))).toFinset.card = 30 := by
          rw [List.toFinset_card_of_nodup hwnodup, hwlen]
        have hle := Finset.card_le_card hsubS
        rw [hcard30, hcard] at hle
        omega
      rw [if_pos h29, if_neg hnot]
    · rw [if_neg h29]
  · intro y0 hS i h hget
    have hsorted := sorted_pivotYears df
    have hmemS : ∀ k : ℕ, k < 30 → (y0 + (k : ℤ)) ∈ stationDataYears df n := by
      intro k hk
      rw [hS, Finset.mem_Icc]
      omega
    have hsome : ∀ k : ℕ, k < 30 → (annualMin df n (y0 + (k : ℤ))).isSome = true := by
      intro k hk
      obtain ⟨r, hr, hrn, hrs, hry⟩ := mem_stationDataYears.mp (hmemS k hk)
      exact annualMin_isSome.mpr ⟨r, hr, hrn, hry, hrs⟩
    refine ⟨hsome, ?_⟩
    have hmemys : ∀ k : ℕ, k < 30 → (y0 + (k : ℤ)) ∈ pivotYears df := by
      intro k hk
      rw [pivotYears, Finset.mem_sort]
      exact stationDataYears_subset_pivot df n (hmemS k hk)
    have hcnt := pivot_count_eq hS
    have hpos : ∀ k : ℕ, k < 30 →
        ∃ hh : ((pivotFinset df).filter (fun z => z < y0)).card + k < (pivotYears df).length,
          (pivotYears df).get
            ⟨((pivotFinset df).filter (fun z => z < y0)).card + k, hh⟩ = y0 + (k : ℤ) := by
      intro k hk
      refine get_of_count hsorted (hmemys k hk) ?_
      rw [pivotYears_filter_card]
      exact hcnt k (by omega)
    have hi29 : i = ((pivotFinset df).filter (fun z => z < y0)).card + 29 := by
      have h1 := sorted_count_lt hsorted i h
      rw [hget] at h1
      have h2 : ((pivotYears df).filter (fun z => decide (z < y0 + 29))).length =
          ((pivotFinset df).filter (fun z => z < y0)).card + 29 := by
        rw [pivotYears_filter_card]
        have h3 := hcnt 29 (by omega)
        have h4 : (((29 : ℕ)) : ℤ) = (29 : ℤ) := by norm_num
        rw [h4] at h3
        exact h3
      omega
    subst hi29
    have hdropc : ((pivotFinset df).filter (fun z => z < y0)).card + 29 - 29 =
        ((pivotFinset df).filter (fun z => z < y0)).card := by
      omega
    have hwys : (((pivotYears df).take
          (((pivotFinset df).filter (fun z => z < y0)).card + 29 + 1)).drop
          (((pivotFinset df).filter (fun z => z < y0)).card + 29 - 29)) =
        (List.range 30).map (fun k : ℕ => y0 + (k : ℤ)) := by
      rw [hdropc]
      apply List.ext_getElem
      · rw [List.length_drop, List.length_take, Nat.min_eq_left (by omega),
          List.length_map, List.length_range]
        omega
      · intro j h1 h2
        rw [List.length_drop, List.length_take, Nat.min_eq_left (by omega)] at h1
        have hj30 : j < 30 := by omega
        rw [List.getElem_drop, List.getElem_take, List.getElem_map, List.getElem_range]
        obtain ⟨hh, hgetj⟩ := hpos j hj30
        rw [← hgetj]
        rfl
    have hwcol : (((tminAnnualCol df n).take
          (((pivotFinset df).filter (fun z => z < y0)).card + 29 + 1)).drop
          (((pivotFinset df).filter (fun z => z < y0)).card + 29 - 29)) =
        (List.range 30).map (fun k : ℕ => annualMin df n (y0 + (k : ℤ))) := by
      rw [hcoldef, ← List.map_take, ← List.map_drop, hwys, List.map_map]
      rfl
    have hall : ((((tminAnnualCol df n).take
          (((pivotFinset df).filter (fun z => z < y0)).card + 29 + 1)).drop
          (((pivotFinset df).filter (fun z => z < y0)).card + 29 - 29)).all
          Option.isSome) = true := by
      rw [hwcol, List.all_eq_true]
      intro x hx
      rw [List.mem_map] at hx
      obtain ⟨k, hk, hkx⟩ := hx
      rw [List.mem_range] at hk
      rw [← hkx]
      exact hsome k hk
    have hfm : ((((tminAnnualCol df n).take
          (((pivotFinset df).filter (fun z => z < y0)).card + 29 + 1)).drop
          (((pivotFinset df).filter (fun z => z < y0)).card + 29 - 29)).filterMap id) =
        (List.range 30).map (fun k : ℕ => (annualMin df n (y0 + (k : ℤ))).getD 0) := by
      rw [hwcol, List.filterMap_map]
      apply filterMap_eq_map_of_some
      intro k hk
      rw [List.mem_range] at hk
      obtain ⟨v, hv⟩ := Option.isSome_iff_exists.mp (hsome k hk)
      simp only [Function.comp, id]
      rw [hv]
      rfl
    rw [hardinessZoneCol, rolling30Mean, List.getElem?_map,
      List.getElem?_range (by rw [hlen]; exact h)]
    simp only [Option.map_some']
    rw [if_pos (by omega : 29 ≤ ((pivotFinset df).filter (fun z => z < y0)).card + 29),
      if_pos hall, hfm]

set_option maxRecDepth 100000 in
/-- Witness for C1: with exactly 29 years (0–28) of data the rolling entry at
the last pivot row is missing; with exactly 30 consecutive years (0–29), the
rolling value at the row of year 29 is the mean of the 30 annual minimums. -/
theorem C1_witness :
    (hardinessZoneCol rows29 "A")[28]? = some none ∧
    (hardinessZoneCol rows30 "A")[29]? =
      some (some ((((List.range 30).map
        (fun k : ℕ => (annualMin rows30 "A" ((0 : ℤ) + (k : ℤ))).getD 0)).sum) / 30)) := by
  constructor
  · have hcard : (stationDataYears rows29 "A").card = 29 := by
      with_unfolding_all decide
    have hall := (C1_rolling_hardiness rows29 "A").1 hcard
    have hlen28 : 28 < (hardinessZoneCol rows29 "A").length := by
      with_unfolding_all decide
    rw [List.getElem?_eq_getElem hlen28, hall _ (List.getElem_mem hlen28)]
  · have hS : stationDataYears rows30 "A" = Finset.Icc 0 (0 + 29) := by
      with_unfolding_all decide
    have hlen29 : 29 < (pivotYears rows30).length := by
      with_unfolding_all decide
    have h29q : (pivotYears rows30)[29]? = some (0 + 29) := by
      with_unfolding_all decide
    rw [List.getElem?_eq_getElem hlen29] at h29q
    have hget : (pivotYears rows30).get ⟨29, hlen29⟩ = 0 + 29 :=
      Option.some.inj h29q
    exact ((C1_rolling_hardiness rows30 "A").2 0 hS 29 hlen29 hget).2

end Weather
